import Mathlib

/-!
Verification of the aarch64-cpu-ext hardware abstraction layer.

This development shallowly embeds the three engines of the crate —
the translation-table-entry (TTE) codec (`src/structures/tte.rs`),
the cache-maintenance sweeps (`src/cache.rs`) and the TLB-invalidation
operand encoder (`src/asm/tlb.rs`) — and proves or refutes the spec's
claims about them.

Machine 64-bit words are modelled as `Nat`; the source's shift/mask
operations are written as the equivalent division/modulo/multiplication
by powers of two (`x >> s` is `x / 2^s`, `x & (2^w - 1)` is `x % 2^w`,
`x << s` is `x * 2^s`), so that every obligation is plain arithmetic.
Rust panics (`assert!`, `panic!`, `unreachable!`) are modelled as `none`
of an `Option` result.
-/

namespace AArch64CpuExt

/-! ## Granule and output-address-width descriptors (`tte.rs`) -/

/-- The three page-granule markers `Granule4KB`/`Granule16KB`/`Granule64KB`. -/
inductive Granule where
  | g4KB
  | g16KB
  | g64KB
deriving DecidableEq

/-- `Granule::M`: log2 of the granule size (12, 14, 16). -/
def Granule.M : Granule → Nat
  | .g4KB => 12
  | .g16KB => 14
  | .g64KB => 16

/-- `Granule::SIZE = 2^M`. -/
def Granule.SIZE (g : Granule) : Nat := 2 ^ g.M

/-- `Granule::MASK = (1 << M) - 1`, the alignment mask. -/
def Granule.MASK (g : Granule) : Nat := 2 ^ g.M - 1

/-- The two output-address-width markers `OA48`/`OA52`. -/
inductive OAWidth where
  | oa48
  | oa52
deriving DecidableEq

/-- `OA::BITS`: the output address width in bits. -/
def OAWidth.BITS : OAWidth → Nat
  | .oa48 => 48
  | .oa52 => 52

/-! ## tock-registers primitives

`TTE64` holds a `LocalRegisterCopy<u64>`; field reads and read-modify-write
are the tock-registers primitives, written arithmetically. -/

/-- tock-registers field read `(value >> shift) & ((1 << width) - 1)`. -/
def regRead (v s w : Nat) : Nat := v / 2 ^ s % 2 ^ w

/-- tock-registers `modify` with `FieldValue`
`(old & !(mask << shift)) | ((x & mask) << shift)`: the bits of the field
are cleared and replaced, all other bits kept.  Written arithmetically as
high bits + new field + low bits (equal to the bitwise form for any 64-bit
`old`, since the three parts occupy disjoint bit ranges). -/
def regModify (old s w x : Nat) : Nat :=
  old / 2 ^ (s + w) * 2 ^ (s + w) + x % 2 ^ w * 2 ^ s + old % 2 ^ s

/-! ## TTE64 (`tte.rs`)

A `TTE64<G, O>` is its raw 64-bit register value; the granule and
output-address-width type parameters become explicit arguments. -/

/-- `TTE64::new(value)`: wraps a raw u64 value unchanged. -/
def TTE64.new (value : Nat) : Nat := value

/-- `TTE64::invalid()`: the all-zero entry. -/
def TTE64.invalid : Nat := TTE64.new 0

/-- `TTE64::is_valid`: `VALID` field (offset 0, 1 bit) is set. -/
def TTE64.is_valid (v : Nat) : Bool := regRead v 0 1 != 0

/-- `TTE64::is_table`: valid and `TYPE` field (offset 1, 1 bit) set. -/
def TTE64.is_table (v : Nat) : Bool := TTE64.is_valid v && regRead v 1 1 != 0

/-- `TTE64::is_block`: valid and `TYPE` field clear. -/
def TTE64.is_block (v : Nat) : Bool := TTE64.is_valid v && !(regRead v 1 1 != 0)

/-- `TTE64::set_address`: asserts the address is granule-aligned
(`addr & G::MASK == 0`, i.e. `addr % 2^M = 0`) and below the output-address
bound (`addr < 1 << O::BITS`), then writes `addr >> 12` into the `ADDR`
field (offset 12, 38 bits).  The two `assert!` panics are modelled as
`none`. -/
def TTE64.set_address (g : Granule) (o : OAWidth) (v addr : Nat) : Option Nat :=
  if addr % 2 ^ g.M ≠ 0 then none
  else if ¬ addr < 2 ^ o.BITS then none
  else some (regModify v 12 38 (addr / 2 ^ 12))

/-- `TTE64::new_table`: from zero, `modify(VALID::Valid + TYPE::Table + AF::Accessed)`
(bits 0, 1 and 10), then `set_address`. -/
def TTE64.new_table (g : Granule) (o : OAWidth) (table_addr : Nat) : Option Nat :=
  TTE64.set_address g o (regModify (regModify (regModify 0 0 1 1) 1 1 1) 10 1 1) table_addr

/-- `TTE64::new_block`: from zero, `modify(VALID::Valid + TYPE::Block + AF::Accessed)`
(bits 0 and 10; `TYPE::Block` writes 0), then `set_address`. -/
def TTE64.new_block (g : Granule) (o : OAWidth) (block_addr : Nat) : Option Nat :=
  TTE64.set_address g o (regModify (regModify (regModify 0 0 1 1) 1 1 0) 10 1 1) block_addr

/-- `TTE64::address`: 0 for an invalid entry; otherwise masks the raw value
to bits `[bit_end:bit_start]` where `bit_start = G::M` and `bit_end` is 50
for 52-bit output addresses with 4K/16K granules, else 48
(`raw & (((1 << (bit_end - bit_start + 1)) - 1) << bit_start)`). -/
def TTE64.address (g : Granule) (o : OAWidth) (v : Nat) : Nat :=
  if ¬ TTE64.is_valid v then 0
  else
    let bit_start := g.M
    let bit_end := if o.BITS = 52 ∧ (g.M = 12 ∨ g.M = 14) then 50 else 48
    v / 2 ^ bit_start % 2 ^ (bit_end - bit_start + 1) * 2 ^ bit_start

/-- The `n` match of `TTE64::address_with_page_level`: the lowest address
bit significant for a block at the given (granule, level); undefined
combinations `panic!`, modelled as `none`. -/
def TTE64.block_low_bit (g : Granule) (level : Nat) : Option Nat :=
  match g, level with
  | .g4KB, 0 => some 39
  | .g4KB, 1 => some 30
  | .g4KB, 2 => some 21
  | .g16KB, 1 => some 36
  | .g16KB, 2 => some 25
  | .g64KB, 1 => some 42
  | .g64KB, 2 => some 29
  | _, _ => none

/-- `TTE64::address_with_page_level`: a table entry returns `address()`;
a non-table entry masks the raw value to bits `[bit_end:n]` with `n` from
`block_low_bit` (panicking on undefined combinations) and `bit_end` as in
`address`. -/
def TTE64.address_with_page_level (g : Granule) (o : OAWidth) (v level : Nat) :
    Option Nat :=
  if TTE64.is_table v then some (TTE64.address g o v)
  else
    (TTE64.block_low_bit g level).map fun n =>
      let bit_end := if o.BITS = 52 ∧ (g.M = 12 ∨ g.M = 14) then 50 else 48
      v / 2 ^ n % 2 ^ (bit_end - n + 1) * 2 ^ n

/-- The `Shareability` enum. -/
inductive Shareability where
  | NonShareable
  | OuterShareable
  | InnerShareable
deriving DecidableEq

/-- `TTE64::shareability`: `read_as_enum` of the `SH` field (offset 8,
2 bits); the encodings 0b00/0b10/0b11 are defined, the reserved encoding
0b01 hits `unreachable!`, modelled as `none`. -/
def TTE64.shareability (v : Nat) : Option Shareability :=
  match regRead v 8 2 with
  | 0 => some .NonShareable
  | 2 => some .OuterShareable
  | 3 => some .InnerShareable
  | _ => none

/-- `TTE64::calculate_index`: page-table index of a virtual address at a
level, matching on `(G::M, level)`; each arm is `(va >> pos) & mask`,
undefined combinations `panic!` (modelled as `none`). -/
def TTE64.calculate_index (g : Granule) (va level : Nat) : Option Nat :=
  match g, level with
  | .g4KB, 0 => some (va / 2 ^ 39 % 2 ^ 9)
  | .g4KB, 1 => some (va / 2 ^ 30 % 2 ^ 9)
  | .g4KB, 2 => some (va / 2 ^ 21 % 2 ^ 9)
  | .g4KB, 3 => some (va / 2 ^ 12 % 2 ^ 9)
  | .g16KB, 0 => some (va / 2 ^ 47 % 2 ^ 1)
  | .g16KB, 1 => some (va / 2 ^ 36 % 2 ^ 11)
  | .g16KB, 2 => some (va / 2 ^ 25 % 2 ^ 11)
  | .g16KB, 3 => some (va / 2 ^ 14 % 2 ^ 11)
  | .g64KB, 1 => some (va / 2 ^ 42 % 2 ^ 6)
  | .g64KB, 2 => some (va / 2 ^ 29 % 2 ^ 13)
  | .g64KB, 3 => some (va / 2 ^ 16 % 2 ^ 13)
  | _, _ => none

/-- Written from the spec's words, for comparison with `calculate_index`:
"4K granule levels 0-3 use 9-bit fields at bit positions 39/30/21/12;
16K granule levels 0-3 use 1/11/11/11-bit fields at 47/36/25/14;
64K granule levels 1-3 use 6/13/13-bit fields at 42/29/16 (level 0
undefined for 64K)"; any other pair is undefined.  A `width`-bit field at
position `pos` of `va` is `va / 2^pos % 2^width`. -/
def calculateIndexSpec (g : Granule) (va level : Nat) : Option Nat :=
  let field (pos width : Nat) : Option Nat := some (va / 2 ^ pos % 2 ^ width)
  match g, level with
  | .g4KB, 0 => field 39 9
  | .g4KB, 1 => field 30 9
  | .g4KB, 2 => field 21 9
  | .g4KB, 3 => field 12 9
  | .g16KB, 0 => field 47 1
  | .g16KB, 1 => field 36 11
  | .g16KB, 2 => field 25 11
  | .g16KB, 3 => field 14 11
  | .g64KB, 1 => field 42 6
  | .g64KB, 2 => field 29 13
  | .g64KB, 3 => field 16 13
  | _, _ => none

/-! ## Cache maintenance (`cache.rs`)

The sweeps are modelled as the trace of operations they issue.  The
`CacheOp` argument only selects which `dc` opcode each line operation
uses; the set of lines/levels visited and the barrier placement do not
depend on it, so the traces record lines, levels and barriers. -/

/-- `cache_line_size()` reads `CTR_EL0.DminLine` and returns
`4 << DminLine`.  The spec and claims fix the 64-byte configuration
(`DminLine = 4`), which is modelled here. -/
def cache_line_size : Nat := 64

/-- The sweep loop of `dcache_range`:
`while aligned_addr < end { _dcache_line(op, aligned_addr); aligned_addr += cache_line_size }`,
returning the list of line addresses passed to `_dcache_line`, in order. -/
def dcacheSweep (aligned_addr e : Nat) : List Nat :=
  if aligned_addr < e then
    aligned_addr :: dcacheSweep (aligned_addr + cache_line_size) e
  else []
termination_by e - aligned_addr
decreasing_by simp [cache_line_size]; omega

/-- `dcache_range(op, addr, size)`: `end = addr + size`,
`aligned_addr = addr & !(cache_line_size - 1)` (for the 64-byte line size
this is `addr / 64 * 64`), then the sweep loop.  The trailing
`dsb(SY); isb(SY)` are unconditional and not part of the line trace. -/
def dcache_range (addr size : Nat) : List Nat :=
  dcacheSweep (addr / cache_line_size * cache_line_size) (addr + size)

/-- Events issued by `dcache_all`: a whole-level set/way sweep
(`dcache_level(op, level)`), or one of the two trailing barriers. -/
inductive CacheEvent where
  | dlevel (level : Nat)
  | dsbSY
  | isbSY
deriving DecidableEq

/-- The cache-type code of a level in `CLIDR_EL1`:
`(clidr >> (level * 3)) & 0b111`. -/
def clidrType (clidr level : Nat) : Nat := clidr / 2 ^ (level * 3) % 8

/-- The `for level in 0..8` loop of `dcache_all`, written with the number
of remaining iterations as the recursion fuel (`level = 8 - rem`):
type `0b000` returns from the whole function (skipping the trailing
barriers), `0b001` and the reserved codes `0b101..0b111` continue, and
`0b010..=0b100` call `dcache_level(op, level)`; after the loop the
function issues `dsb(SY)` then `isb(SY)`. -/
def dcacheAllLoop (clidr : Nat) : (level rem : Nat) → List CacheEvent
  | _, 0 => [.dsbSY, .isbSY]
  | level, rem + 1 =>
    let ty := clidrType clidr level
    if ty = 0 then []
    else if ty = 1 then dcacheAllLoop clidr (level + 1) rem
    else if 2 ≤ ty ∧ ty ≤ 4 then
      .dlevel level :: dcacheAllLoop clidr (level + 1) rem
    else dcacheAllLoop clidr (level + 1) rem

/-- `dcache_all(op)`: reads `CLIDR_EL1` (the argument here) and runs the
level loop from level 0. -/
def dcache_all (clidr : Nat) : List CacheEvent := dcacheAllLoop clidr 0 8

/-- The levels for which `dcache_all` calls `dcache_level`, in issue
order. -/
def dcacheLevelsCalled (clidr : Nat) : List Nat :=
  (dcache_all clidr).filterMap fun e =>
    match e with
    | .dlevel l => some l
    | _ => none

/-! ## TLB invalidation operands (`tlb.rs`) -/

/-- `va_to_tlbi_va`: `(va >> 12) & VA_MASK` with `VA_MASK = (1 << 44) - 1`. -/
def va_to_tlbi_va (va : Nat) : Nat := va / 2 ^ 12 % 2 ^ 44

/-- The `VAE*`/`VAE*IS` constructor generated by `tlbi_va!`:
`(TlbiVA::VA.val(va_to_tlbi_va(va)) + TlbiVA::ASID.val(asid)).value`.
`VA` is 44 bits at offset 0 and `ASID` 16 bits at offset 48; the
`FieldValue` sum ORs the two disjoint masked fields, equal to the
arithmetic sum below. -/
def tlbiVaOperand (asid va : Nat) : Nat :=
  va_to_tlbi_va va % 2 ^ 44 + asid % 2 ^ 16 * 2 ^ 48

/-- The `VAAE1`/`VAAE1IS` constructor generated by `tlbi_vaa!`:
`TlbiVAA::VA.val(va_to_tlbi_va(va)).value`, the masked 44-bit VA field at
offset 0. -/
def tlbiVaaOperand (va : Nat) : Nat := va_to_tlbi_va va % 2 ^ 44

/-! ## Theorems for the claims -/

/-- C5: for every TLB by-VA operand built by the `VAE*`/`VAAE*`
constructors from an ASID and a virtual address, bits [43:0] of the
operand hold the page-frame number `(va >> 12) & (2^44 - 1)` (address
bits [55:12], not the raw byte address), bits [63:48] of the by-VA+ASID
operand hold the 16-bit ASID, the level-hint bits [47:44] are zero, and
the VAA encode path applies the same pre-shift convention. -/
theorem C5_tlbi_operand_packing (asid va : Nat) :
    tlbiVaOperand asid va % 2 ^ 44 = va / 2 ^ 12 % 2 ^ 44 ∧
    tlbiVaOperand asid va / 2 ^ 48 = asid % 2 ^ 16 ∧
    tlbiVaOperand asid va / 2 ^ 44 % 2 ^ 4 = 0 ∧
    tlbiVaaOperand va = va / 2 ^ 12 % 2 ^ 44 := by
  unfold tlbiVaOperand tlbiVaaOperand va_to_tlbi_va
  refine ⟨by omega, by omega, by omega, by omega⟩

/-- C6: `calculate_index` agrees with the spec's fixed bit-position table
on every (granule, level) pair, and every undefined pair — (64K, level 0)
and any level above 3 — panics (modelled as `none`) rather than returning
a value. -/
theorem C6_calculate_index :
    (∀ g va level, TTE64.calculate_index g va level = calculateIndexSpec g va level) ∧
    (∀ va, TTE64.calculate_index Granule.g64KB va 0 = none) ∧
    (∀ g va level, 4 ≤ level → TTE64.calculate_index g va level = none) := by
  refine ⟨?_, fun va => rfl, ?_⟩
  · intro g va level
    cases g <;> rcases level with _ | _ | _ | _ | l <;> rfl
  · intro g va level h
    cases g <;> rcases level with _ | _ | _ | _ | l <;> first | omega | rfl

/-- Witness for C6 at the concrete undefined pairs (64K, level 0) and
(4K, level 5). -/
theorem C6_calculate_index_witness :
    TTE64.calculate_index Granule.g64KB 0x123456789 0 = none ∧
    4 ≤ 5 ∧ TTE64.calculate_index Granule.g4KB 0x123456789 5 = none :=
  ⟨C6_calculate_index.2.1 0x123456789, by omega,
    C6_calculate_index.2.2 Granule.g4KB 0x123456789 5 (by omega)⟩

/-- C7: an entry with the VALID bit clear reports address 0, is not
valid, and is neither a table nor a block; on an entry with the VALID bit
set, `is_table` and `is_block` are mutually exclusive (exactly one
holds). -/
theorem C7_validity_invariants (g : Granule) (o : OAWidth) (v : Nat) :
    (regRead v 0 1 = 0 →
      TTE64.address g o v = 0 ∧ TTE64.is_valid v = false ∧
      TTE64.is_table v = false ∧ TTE64.is_block v = false) ∧
    (regRead v 0 1 ≠ 0 →
      TTE64.is_valid v = true ∧ (TTE64.is_table v = true ↔ TTE64.is_block v = false)) := by
  constructor
  · intro h
    have hv : TTE64.is_valid v = false := by simp [TTE64.is_valid, h]
    refine ⟨?_, hv, ?_, ?_⟩ <;>
      simp [TTE64.address, TTE64.is_table, TTE64.is_block, hv]
  · intro h
    have hv : TTE64.is_valid v = true := by simp [TTE64.is_valid, h]
    refine ⟨hv, ?_⟩
    cases ht : (regRead v 1 1 != 0) <;>
      simp [TTE64.is_table, TTE64.is_block, hv, ht]

/-- Witness for C7: the all-zero (invalid) entry, and the valid table
entry 3 = VALID|TYPE. -/
theorem C7_validity_invariants_witness :
    (regRead 0 0 1 = 0 ∧ TTE64.address Granule.g4KB OAWidth.oa48 0 = 0 ∧
      TTE64.is_valid 0 = false ∧ TTE64.is_table 0 = false ∧ TTE64.is_block 0 = false) ∧
    (regRead 3 0 1 ≠ 0 ∧ TTE64.is_valid 3 = true ∧
      (TTE64.is_table 3 = true ↔ TTE64.is_block 3 = false)) := by
  have h0 := (C7_validity_invariants Granule.g4KB OAWidth.oa48 0).1 (by decide)
  have h3 := (C7_validity_invariants Granule.g4KB OAWidth.oa48 3).2 (by decide)
  exact ⟨⟨by decide, h0.1, h0.2.1, h0.2.2.1, h0.2.2.2⟩, ⟨by decide, h3.1, h3.2⟩⟩

/-- C8: for every address that is misaligned to the granule or not below
the output-address bound, `new_table` and `new_block` reject the
construction (an `assert!` panic, modelled as `none`) before producing an
entry; no such address is silently masked into the stored field. -/
theorem C8_reject_invalid_address (g : Granule) (o : OAWidth) (addr : Nat)
    (h : addr % 2 ^ g.M ≠ 0 ∨ 2 ^ o.BITS ≤ addr) :
    TTE64.new_table g o addr = none ∧ TTE64.new_block g o addr = none := by
  refine ⟨?_, ?_⟩ <;>
  · simp only [TTE64.new_table, TTE64.new_block, TTE64.set_address]
    rcases h with h | h
    · rw [if_pos h]
    · by_cases ha : addr % 2 ^ g.M ≠ 0
      · rw [if_pos ha]
      · rw [if_neg ha, if_pos (by omega)]

/-- Witness for C8: the misaligned address 123 (4K granule) and the
out-of-range address 2^49 (aligned, but above the 48-bit bound). -/
theorem C8_reject_invalid_address_witness :
    ((123 : Nat) % 2 ^ Granule.g4KB.M ≠ 0 ∨ 2 ^ OAWidth.oa48.BITS ≤ 123) ∧
    TTE64.new_table Granule.g4KB OAWidth.oa48 123 = none ∧
    TTE64.new_block Granule.g4KB OAWidth.oa48 123 = none ∧
    ((2 ^ 49 : Nat) % 2 ^ Granule.g4KB.M ≠ 0 ∨ 2 ^ OAWidth.oa48.BITS ≤ 2 ^ 49) ∧
    TTE64.new_table Granule.g4KB OAWidth.oa48 (2 ^ 49) = none := by
  have h1 := C8_reject_invalid_address Granule.g4KB OAWidth.oa48 123 (Or.inl (by decide))
  have h2 := C8_reject_invalid_address Granule.g4KB OAWidth.oa48 (2 ^ 49)
    (Or.inr (by decide))
  exact ⟨Or.inl (by decide), h1.1, h1.2, Or.inr (by decide), h2.1⟩

/-- C10: `shareability()` is partial: it panics (`unreachable!`, modelled
as `none`) exactly when the SH bits [9:8] hold the reserved encoding
0b01 — reachable e.g. via `new(0x100)` — and returns a value exactly when
they hold 0b00, 0b10 or 0b11. -/
theorem C10_shareability_partial :
    TTE64.shareability (TTE64.new 0x100) = none ∧
    (∀ v : Nat, (TTE64.shareability v).isSome ↔ regRead v 8 2 ≠ 1) := by
  refine ⟨rfl, ?_⟩
  intro v
  have h : regRead v 8 2 = 0 ∨ regRead v 8 2 = 1 ∨ regRead v 8 2 = 2 ∨
      regRead v 8 2 = 3 := by unfold regRead; omega
  unfold TTE64.shareability
  rcases h with h | h | h | h <;> rw [h] <;> simp

/-- The largest prefix of the output-address space whose addresses
survive the `new_table`/`new_block` → `address` round trip.  For 48-bit
output addresses it is the full `2^48`; for 52-bit output addresses the
38-bit `ADDR` field at offset 12 only ever stores address bits [49:12]
and `address()` reads at most up to bit 50 (4K/16K granules) or bit 48
(64K), so only addresses below `2^50` (4K/16K) resp. `2^49` (64K) are
preserved. -/
def roundTripBound : Granule → OAWidth → Nat
  | _, .oa48 => 2 ^ 48
  | .g4KB, .oa52 => 2 ^ 50
  | .g16KB, .oa52 => 2 ^ 50
  | .g64KB, .oa52 => 2 ^ 49

/-- C1 counterexample: with the 4K granule and 52-bit output addresses,
the granule-aligned address `2^51 < 2^52` (highest representable bit set)
is accepted by `new_table` but reads back as 0, not `2^51`: the claim's
round trip fails. -/
theorem C1_roundtrip_counterexample :
    (TTE64.new_table Granule.g4KB OAWidth.oa52 (2 ^ 51)).map
      (TTE64.address Granule.g4KB OAWidth.oa52) = some 0 ∧
    (2 ^ 51 : Nat) ≠ 0 ∧
    (2 ^ 51 : Nat) % 2 ^ Granule.g4KB.M = 0 ∧ (2 ^ 51 : Nat) < 2 ^ OAWidth.oa52.BITS := by
  refine ⟨by decide, by decide, by decide, by decide⟩

/-- C1 (amended): constructing an entry with `new_table(a)` or
`new_block(a)` and reading it back with `address()` returns exactly `a`
for every granule-aligned `a` below `roundTripBound` — the full `2^48`
for 48-bit output addresses, but only `2^50` (4K/16K) resp. `2^49` (64K)
for 52-bit output addresses; aligned in-range addresses with higher bits
set are accepted and silently truncated. -/
theorem C1_roundtrip_amended (g : Granule) (o : OAWidth) (a : Nat)
    (hal : a % 2 ^ g.M = 0) (hb : a < roundTripBound g o) :
    (TTE64.new_table g o a).map (TTE64.address g o) = some a ∧
    (TTE64.new_block g o a).map (TTE64.address g o) = some a := by
  cases g <;> cases o <;>
  · simp only [roundTripBound, Granule.M] at hal hb
    constructor <;>
    · simp only [TTE64.new_table, TTE64.new_block, TTE64.set_address, Granule.M,
        OAWidth.BITS]
      rw [if_neg (by omega), if_neg (by omega), Option.map_some']
      simp only [TTE64.address, TTE64.is_valid, regRead, regModify, Granule.M,
        OAWidth.BITS]
      norm_num
      rw [if_neg (by omega)]
      omega

/-- Witness for C1 (amended) at the 16K granule, 52-bit output width, and
the aligned address `2^50 - 2^14` just below the amended bound. -/
theorem C1_roundtrip_amended_witness :
    (2 ^ 50 - 2 ^ 14 : Nat) % 2 ^ Granule.g16KB.M = 0 ∧
    (2 ^ 50 - 2 ^ 14 : Nat) < roundTripBound Granule.g16KB OAWidth.oa52 ∧
    (TTE64.new_table Granule.g16KB OAWidth.oa52 (2 ^ 50 - 2 ^ 14)).map
      (TTE64.address Granule.g16KB OAWidth.oa52) = some (2 ^ 50 - 2 ^ 14) ∧
    (TTE64.new_block Granule.g16KB OAWidth.oa52 (2 ^ 50 - 2 ^ 14)).map
      (TTE64.address Granule.g16KB OAWidth.oa52) = some (2 ^ 50 - 2 ^ 14) := by
  have h := C1_roundtrip_amended Granule.g16KB OAWidth.oa52 (2 ^ 50 - 2 ^ 14)
    (by decide) (by decide)
  exact ⟨by decide, by decide, h.1, h.2⟩

/-- C2 counterexample: with the 64-byte line size, `dcache_range(op,
0x1000, 0)` — a size of 0 at a line-aligned address — performs no line
operation at all, refuting the claim that the line containing the address
is always processed even when `size` is 0. -/
theorem C2_lines_counterexample : dcache_range 0x1000 0 = [] := by
  simp [dcache_range, dcacheSweep, cache_line_size]

/-- The lines visited by the sweep loop from a line-aligned start are
exactly the line-aligned addresses in `[aligned_addr, end)`. -/
theorem mem_dcacheSweep (line : Nat) :
    ∀ a e : Nat, a % 64 = 0 →
      (line ∈ dcacheSweep a e ↔ line % 64 = 0 ∧ a ≤ line ∧ line < e) := by
  intro a e
  induction a, e using dcacheSweep.induct with
  | case1 a e h ih =>
    intro ha
    rw [dcacheSweep, if_pos h]
    simp only [List.mem_cons]
    rw [ih (by simp only [cache_line_size]; omega)]
    simp only [cache_line_size]
    omega
  | case2 a e h =>
    intro ha
    rw [dcacheSweep, if_neg h]
    simp only [List.not_mem_nil, false_iff]
    omega

/-- C2 (amended): `dcache_range(op, address, size)` applies `op` exactly
to the cache lines overlapping `[address, address + size)`: with the
64-byte line size, `dcache_range(op, 0x1000, 100)` issues exactly the two
lines 0x1000 and 0x1040, and the line containing `address` is processed
whenever `size > 0`; but when `size = 0` the range is empty and a
line-aligned `address` gets no line at all (the original "at least one
line even when size is 0" fails). -/
theorem C2_lines_amended :
    dcache_range 0x1000 100 = [0x1000, 0x1040] ∧
    (∀ addr size line, line ∈ dcache_range addr size ↔
      line % 64 = 0 ∧ line < addr + size ∧ addr < line + 64) ∧
    (∀ addr size, 0 < size → addr / 64 * 64 ∈ dcache_range addr size) := by
  have hmem : ∀ addr size line, line ∈ dcache_range addr size ↔
      line % 64 = 0 ∧ addr / 64 * 64 ≤ line ∧ line < addr + size := by
    intro addr size line
    unfold dcache_range cache_line_size
    exact mem_dcacheSweep line _ _ (by omega)
  refine ⟨?_, ?_, ?_⟩
  · simp [dcache_range, dcacheSweep, cache_line_size]
  · intro addr size line
    rw [hmem]
    omega
  · intro addr size h
    rw [hmem]
    omega

/-- Witness for C2 (amended): with `size = 100 > 0` the line containing
0x1000 is processed. -/
theorem C2_lines_amended_witness :
    (0 : Nat) < 100 ∧ (0x1000 : Nat) / 64 * 64 ∈ dcache_range 0x1000 100 :=
  ⟨by decide, C2_lines_amended.2.2 0x1000 100 (by decide)⟩

/-- C3 (code bug evidence): with a cache-level-ID value of 4 (level 0
unified cache, level 1 type 0b000), `dcache_all` performs the level-0
set/way sweep and then returns from inside the loop, issuing neither the
data-synchronization nor the instruction-synchronization barrier — the
`return` on type 0b000 skips the two barriers placed after the loop, so
they are not issued on every call as the spec requires. -/
theorem C3_missing_trailing_barriers :
    dcache_all 4 = [CacheEvent.dlevel 0] ∧
    CacheEvent.dsbSY ∉ dcache_all 4 ∧ CacheEvent.isbSY ∉ dcache_all 4 := by
  refine ⟨by decide, by decide, by decide⟩

/-- C4: `address_with_page_level(level)` returns the full `address()`
pointer for every table entry (at any level), and on a block entry built
from a granule-aligned 48-bit address it zeroes exactly the bits below
the level's significance `n` (from `block_low_bit`), e.g. the 4K-granule
level-2 block created at `0x2000_0000_1000 + 2MiB` reports
`0x2000_0000_0000 + 2MiB`. -/
theorem C4_address_with_page_level :
    ((TTE64.new_block Granule.g4KB OAWidth.oa48 (0x200000001000 + 2 * 1024 * 1024)).bind
      (fun v => TTE64.address_with_page_level Granule.g4KB OAWidth.oa48 v 2) =
      some (0x200000000000 + 2 * 1024 * 1024)) ∧
    (∀ (g : Granule) (o : OAWidth) (v level : Nat), TTE64.is_table v = true →
      TTE64.address_with_page_level g o v level = some (TTE64.address g o v)) ∧
    (∀ (g : Granule) (o : OAWidth) (a level n : Nat),
      TTE64.block_low_bit g level = some n →
      a % 2 ^ g.M = 0 → a < 2 ^ 48 →
      (TTE64.new_block g o a).bind
        (fun v => TTE64.address_with_page_level g o v level) =
        some (a / 2 ^ n * 2 ^ n)) := by
  refine ⟨by decide, ?_, ?_⟩
  · intro g o v level h
    rw [TTE64.address_with_page_level, if_pos h]
  · intro g o a level n hn hal hb
    cases g <;> cases o <;> rcases level with _ | _ | _ | l <;>
      simp only [TTE64.block_low_bit] at hn <;>
      first
      | exact Option.noConfusion hn
      | · injection hn with h
          subst h
          simp only [Granule.M] at hal
          simp only [TTE64.new_block, TTE64.set_address, Granule.M, OAWidth.BITS]
          rw [if_neg (by omega), if_neg (by omega)]
          simp only [Option.some_bind]
          rw [TTE64.address_with_page_level, if_neg (by
            simp only [TTE64.is_table, TTE64.is_valid, regRead, regModify]
            norm_num
            omega)]
          simp only [TTE64.block_low_bit, Option.map_some', Granule.M, OAWidth.BITS,
            regModify]
          norm_num
          omega

/-- Witness for C4: the raw table entry 3 (VALID|TYPE) at level 0, and
the spec's own 4K level-2 block example. -/
theorem C4_address_with_page_level_witness :
    TTE64.is_table 3 = true ∧
    TTE64.address_with_page_level Granule.g4KB OAWidth.oa48 3 0 =
      some (TTE64.address Granule.g4KB OAWidth.oa48 3) ∧
    TTE64.block_low_bit Granule.g4KB 2 = some 21 ∧
    (0x200000201000 : Nat) % 2 ^ Granule.g4KB.M = 0 ∧ (0x200000201000 : Nat) < 2 ^ 48 ∧
    (TTE64.new_block Granule.g4KB OAWidth.oa48 0x200000201000).bind
      (fun v => TTE64.address_with_page_level Granule.g4KB OAWidth.oa48 v 2) =
      some (0x200000201000 / 2 ^ 21 * 2 ^ 21) := by
  have h1 := C4_address_with_page_level.2.1 Granule.g4KB OAWidth.oa48 3 0 (by decide)
  have h2 := C4_address_with_page_level.2.2 Granule.g4KB OAWidth.oa48 0x200000201000 2 21
    rfl (by decide) (by decide)
  exact ⟨by decide, h1, rfl, by decide, by decide, h2⟩

/-- The `dcache_all` level loop calls `dcache_level` exactly on the
levels, taken in increasing order from 0, up to (excluding) the first
with cache-type 0b000, whose type code is 0b010, 0b011 or 0b100. -/
theorem dcacheAllLoop_levels (clidr : Nat) :
    ∀ (rem level : Nat),
      (dcacheAllLoop clidr level rem).filterMap
          (fun e => match e with | .dlevel l => some l | _ => none) =
        ((List.range' level rem).takeWhile (fun l => clidrType clidr l != 0)).filter
          (fun l => clidrType clidr l == 2 || clidrType clidr l == 3 ||
            clidrType clidr l == 4) := by
  intro rem
  induction rem with
  | zero => intro level; rfl
  | succ m ih =>
    intro level
    rw [List.range'_succ, List.takeWhile_cons, dcacheAllLoop]
    by_cases h0 : clidrType clidr level = 0
    · simp [h0]
    · by_cases h1 : clidrType clidr level = 1
      · rw [if_neg h0, if_pos h1, ih]
        simp [h1, List.filter_cons]
      · by_cases h24 : 2 ≤ clidrType clidr level ∧ clidrType clidr level ≤ 4
        · rw [if_neg h0, if_neg h1, if_pos h24]
          have h234 : clidrType clidr level = 2 ∨ clidrType clidr level = 3 ∨
              clidrType clidr level = 4 := by omega
          rw [if_pos (by simp [bne_iff_ne]; exact h0)]
          simp only [List.filter_cons]
          rw [if_pos (by rcases h234 with h | h | h <;> simp [h])]
          simp [ih]
        · rw [if_neg h0, if_neg h1, if_neg h24, ih]
          rw [if_pos (by simp [bne_iff_ne]; exact h0)]
          simp only [List.filter_cons]
          rw [if_neg (by
            have hne : clidrType clidr level ≠ 2 ∧ clidrType clidr level ≠ 3 ∧
                clidrType clidr level ≠ 4 := by omega
            simp [hne.1, hne.2.1, hne.2.2])]

/-- C9: for every cache-level-ID value, `dcache_all` decodes 3 bits per
level from level 0 upward and calls `dcache_level` exactly for the levels
with type code 0b010, 0b011 or 0b100 that lie strictly before the first
level with code 0b000, in increasing order; levels with code 0b001 or a
reserved code are skipped, and nothing at or above the first 0b000 level
is processed. -/
theorem C9_dcache_all_levels (clidr : Nat) :
    dcacheLevelsCalled clidr =
      ((List.range 8).takeWhile (fun l => clidrType clidr l != 0)).filter
        (fun l => clidrType clidr l == 2 || clidrType clidr l == 3 ||
          clidrType clidr l == 4) := by
  rw [dcacheLevelsCalled, dcache_all, List.range_eq_range']
  exact dcacheAllLoop_levels clidr 8 0

end AArch64CpuExt
